import Mathlib

/-!
Shallow embedding of `src/azure/worker/bindings/meta.py` (the typed-data
conversion registry of the azure-functions-python-worker repository), together
with theorems settling the frozen claims about it.

The Python module is embedded as follows:

* the protobuf tagged union `protos.TypedData` becomes the inductive
  `TypedData`, whose `WhichOneof` method becomes `TypedData.whichOneof`;
* Python runtime values reachable in this module become the inductive `PyVal`,
  Python types become `PyType`, and Python's `isinstance` (with `bool` a
  subclass of `int`) becomes `pyIsinstance`;
* Python exceptions raised by this module become the inductive `PyErr`, and
  fallible Python code becomes `Except PyErr`;
* the external library function `json.loads` is modelled by `json_loads`, a
  fuel-bounded recursive-descent parser of the JSON grammar producing `PyVal`;
* the metaclass `_ConverterMeta`'s three class-level mapping attributes become
  the structure `RegState`, and `_ConverterMeta.__new__` becomes
  `ConverterMeta_new`, an explicit state transformer;
* module-level functions keep their names (`from_incoming_proto`,
  `to_outgoing_proto`), and classmethods of `_BaseConverter` keep theirs
  (`_decode_scalar_typed_data`, `_decode_trigger_metadata_field`).
-/

set_option autoImplicit false

/-- Python single-quote character, used when reproducing the text produced by
Python's `repr` / `!r` format conversions. -/
def pySq : String := String.singleton (Char.ofNat 39)

/-- Model of the Python runtime values that can flow through this module:
scalars produced by JSON decoding and the tagged union, plus the structural
values (`list`, `dict`) that scalar decoding must reject.  `float` carries the
source literal of the floating value; no floating-point arithmetic is ever
performed on it in this module. -/
inductive PyVal where
  | none
  | bool (b : Bool)
  | int (n : Int)
  | float (lit : String)
  | str (s : String)
  | list (xs : List PyVal)
  | dict (kvs : List (String × PyVal))
  | bytes (bs : List Nat)

/-- Model of the Python types this module can receive as `python_type`
arguments or observe via `type(...)`. -/
inductive PyType where
  | bool
  | int
  | float
  | str
  | list
  | dict
  | bytes
  | nonetype
deriving Repr, DecidableEq

/-- Python `type(v)` for the modelled values. -/
def pyTypeOf : PyVal → PyType
  | .none => .nonetype
  | .bool _ => .bool
  | .int _ => .int
  | .float _ => .float
  | .str _ => .str
  | .list _ => .list
  | .dict _ => .dict
  | .bytes _ => .bytes

/-- Python `type(v).__name__` for the modelled types. -/
def typeName : PyType → String
  | .bool => "bool"
  | .int => "int"
  | .float => "float"
  | .str => "str"
  | .list => "list"
  | .dict => "dict"
  | .bytes => "bytes"
  | .nonetype => "NoneType"

/-- Model of Python's `isinstance(v, t)` for a single type: exact type match,
or the one proper subclass relation among the modelled types, namely that
`bool` is a subclass of `int`. -/
def pyIsinstance1 (v : PyVal) (t : PyType) : Bool :=
  pyTypeOf v == t || (pyTypeOf v == .bool && t == .int)

/-- The `python_type` argument of `_decode_scalar_typed_data`: either a single
Python type or a tuple of acceptable types
(`typing.Union[type, typing.Tuple[type, ...]]`). -/
inductive PyTypeSpec where
  | single (t : PyType)
  | tuple (ts : List PyType)
deriving Repr, DecidableEq

/-- Model of Python's `isinstance(v, python_type)` where `python_type` may be
a single type or a tuple of types (membership in the tuple is satisfied by any
subclass of a member, as in Python). -/
def pyIsinstance (v : PyVal) : PyTypeSpec → Bool
  | .single t => pyIsinstance1 v t
  | .tuple ts => ts.any (pyIsinstance1 v)

/-- Model of the Python exceptions this module raises or observes.
`jsonDecodeError` models `json.JSONDecodeError`, a subclass of `ValueError`. -/
inductive PyErr where
  | valueError (msg : String)
  | typeError (msg : String)
  | runtimeError (msg : String)
  | notImplementedError
  | assertionError
  | jsonDecodeError (msg : String)
deriving Repr, DecidableEq

/-- Python's `except (TypeError, ValueError)` clause: matches `TypeError`,
`ValueError` and the `ValueError` subclass `json.JSONDecodeError`. -/
def isTypeOrValueError : PyErr → Bool
  | .valueError _ => true
  | .typeError _ => true
  | .jsonDecodeError _ => true
  | _ => false

/-- The message text `str(e)` of a modelled exception, as interpolated by the
f-strings of the source. -/
def errMessage : PyErr → String
  | .valueError m => m
  | .typeError m => m
  | .runtimeError m => m
  | .notImplementedError => ""
  | .assertionError => ""
  | .jsonDecodeError m => m

/-- The protobuf tagged union `protos.TypedData`: a oneof named `data` with
variants `json`, `string`, `bytes`, `int`, `double`, `http`, `stream`.  A
proto3 oneof may also be entirely unset (`unset` here), in which case
`WhichOneof` returns `None`.  The `http` variant carries a sub-message whose
content this module never inspects, so it is modelled opaquely. -/
inductive TypedData where
  | unset
  | json (s : String)
  | string (s : String)
  | bytes (bs : List Nat)
  | int (n : Int)
  | double (lit : String)
  | http
  | stream (bs : List Nat)
deriving Repr, DecidableEq

/-- Model of `data.WhichOneof(str_data)` for the oneof named by the string
literal in the source: the name of the populated field, or `None` (here
`Option.none`) when no field is populated. -/
def TypedData.whichOneof : TypedData → Option String
  | .unset => Option.none
  | .json _ => some "json"
  | .string _ => some "string"
  | .bytes _ => some "bytes"
  | .int _ => some "int"
  | .double _ => some "double"
  | .http => some "http"
  | .stream _ => some "stream"

/-- Rendering of the oneof name as Python's f-string `{data_type}` renders it:
the bare field name, or the text `None` when the oneof is unset. -/
def whichOneofStr (d : TypedData) : String :=
  match d.whichOneof with
  | some s => s
  | Option.none => "None"

/-- Rendering of the oneof name as Python's f-string `{dt!r}` renders it: the
field name in quotes, or the text `None` when the oneof is unset. -/
def whichOneofRepr (d : TypedData) : String :=
  match d.whichOneof with
  | some s => pySq ++ s ++ pySq
  | Option.none => "None"

/-- The `Binding` enumeration of `meta.py` (`class Binding(str, enum.Enum)`):
the supported binding types.  Each member's value is its string token. -/
inductive Binding where
  | blob
  | blobTrigger
  | http
  | httpTrigger
  | timerTrigger
  | queue
  | queueTrigger
deriving Repr, DecidableEq

/-- The string value of each `Binding` member (the enum mixes in `str`, so the
member itself behaves as this string; f-strings format it as this token). -/
def Binding.value : Binding → String
  | .blob => "blob"
  | .blobTrigger => "blobTrigger"
  | .http => "http"
  | .httpTrigger => "httpTrigger"
  | .timerTrigger => "timerTrigger"
  | .queue => "queue"
  | .queueTrigger => "queueTrigger"

/-- Model of Python's `str.endswith` method: suffix testing on the character
sequences. -/
def pyEndsWith (s suffix : String) : Bool :=
  suffix.data.isSuffixOf s.data

/-- Embedding of `Binding.is_trigger`: `return self.endswith(str_trigger)`
where the literal is the string `Trigger` (the enum member is itself a `str`,
so `endswith` is string suffix testing on its value). -/
def Binding.is_trigger (b : Binding) : Bool :=
  pyEndsWith b.value "Trigger"

/-! ### Model of the external library function `json.loads`

`_decode_scalar_typed_data` calls `json.loads(data.json)`.  The parser below
models CPython's `json` module restricted to the standard JSON grammar
(objects, arrays, strings with the usual escapes, numbers, `true`, `false`,
`null`); a number containing a fraction or exponent part decodes to a Python
`float` (carried here as its literal text), any other number to an `int`.
Invalid input raises `json.JSONDecodeError` (a `ValueError` subclass).
Recursion is bounded by an explicit fuel, always called with enough fuel for
the whole input. -/

/-- Insignificant whitespace accepted between JSON tokens. -/
def isJsonWs (c : Char) : Bool :=
  c == ' ' || c == '\t' || c == '\n' || c == '\r'

/-- Drop leading JSON whitespace. -/
def skipJsonWs : List Char → List Char
  | [] => []
  | c :: cs => if isJsonWs c then skipJsonWs cs else c :: cs

/-- Split off the longest leading run of ASCII digits. -/
def takeDigits : List Char → List Char × List Char
  | [] => ([], [])
  | c :: cs =>
    if c.isDigit then
      let (ds, rest) := takeDigits cs
      (c :: ds, rest)
    else ([], c :: cs)

/-- Numeric value of a digit string. -/
def natOfDigits (ds : List Char) : Nat :=
  ds.foldl (fun acc c => acc * 10 + (c.toNat - 48)) 0

/-- Value of one hexadecimal digit. -/
def hexVal (c : Char) : Option Nat :=
  if c.isDigit then some (c.toNat - 48)
  else if 97 ≤ c.toNat && c.toNat ≤ 102 then some (c.toNat - 87)
  else if 65 ≤ c.toNat && c.toNat ≤ 70 then some (c.toNat - 55)
  else Option.none

/-- Parse the remainder of a JSON string literal (the opening quote already
consumed), handling the escape sequences of the JSON grammar; unescaped
control characters are rejected as in the library's strict mode. -/
def parseJsonString : Nat → List Char → Option (String × List Char)
  | 0, _ => Option.none
  | fuel + 1, cs =>
    match cs with
    | [] => Option.none
    | '"' :: rest => some ("", rest)
    | '\\' :: e :: rest =>
      let cont := fun (c : Char) (tail : List Char) =>
        (parseJsonString fuel tail).map fun p => (String.singleton c ++ p.1, p.2)
      match e with
      | '"' => cont '"' rest
      | '\\' => cont '\\' rest
      | '/' => cont '/' rest
      | 'b' => cont '\x08' rest
      | 'f' => cont '\x0c' rest
      | 'n' => cont '\n' rest
      | 'r' => cont '\r' rest
      | 't' => cont '\t' rest
      | 'u' =>
        match rest with
        | a :: b :: c :: d :: rest2 =>
          match hexVal a, hexVal b, hexVal c, hexVal d with
          | some x, some y, some z, some w =>
            cont (Char.ofNat (((x * 16 + y) * 16 + z) * 16 + w)) rest2
          | _, _, _, _ => Option.none
        | _ => Option.none
      | _ => Option.none
    | c :: rest =>
      if c.toNat < 32 then Option.none
      else (parseJsonString fuel rest).map fun p => (String.singleton c ++ p.1, p.2)

/-- Parse the optional-sign-then-digits part after an `e`/`E` exponent marker,
returning the remaining input. -/
def parseExpPart (cs : List Char) : Option (List Char) :=
  let cs1 := match cs with
    | '+' :: r => r
    | '-' :: r => r
    | _ => cs
  let (ds, rest) := takeDigits cs1
  if ds.isEmpty then Option.none else some rest

/-- Parse a JSON number.  A fraction or exponent part makes it a `float`
(carrying its literal text); otherwise it is an `int`.  Leading zeros are
rejected as in the JSON grammar. -/
def parseJsonNumber (cs : List Char) : Option (PyVal × List Char) :=
  let (neg, cs1) := match cs with
    | '-' :: r => (true, r)
    | _ => (false, cs)
  let (ids, cs2) := takeDigits cs1
  if ids.isEmpty then Option.none
  else if ids.length > 1 && ids.head? == some '0' then Option.none
  else
    let fracRes : Option (List Char × Bool) :=
      match cs2 with
      | '.' :: r =>
        let (fds, r2) := takeDigits r
        if fds.isEmpty then Option.none else some (r2, true)
      | _ => some (cs2, false)
    match fracRes with
    | Option.none => Option.none
    | some (cs3, isFrac) =>
      let expRes : Option (List Char × Bool) :=
        match cs3 with
        | 'e' :: r => (parseExpPart r).map fun rest => (rest, true)
        | 'E' :: r => (parseExpPart r).map fun rest => (rest, true)
        | _ => some (cs3, false)
      match expRes with
      | Option.none => Option.none
      | some (rest, isExp) =>
        if isFrac || isExp then
          some (PyVal.float (String.mk (cs.take (cs.length - rest.length))), rest)
        else
          some (PyVal.int (if neg then -(Int.ofNat (natOfDigits ids))
                           else Int.ofNat (natOfDigits ids)), rest)

mutual

/-- Parse one JSON value (after optional leading whitespace). -/
def parseJsonVal : Nat → List Char → Option (PyVal × List Char)
  | 0, _ => Option.none
  | fuel + 1, cs =>
    match skipJsonWs cs with
    | [] => Option.none
    | c :: rest =>
      if c == 'n' then
        match rest with
        | 'u' :: 'l' :: 'l' :: r => some (PyVal.none, r)
        | _ => Option.none
      else if c == 't' then
        match rest with
        | 'r' :: 'u' :: 'e' :: r => some (PyVal.bool true, r)
        | _ => Option.none
      else if c == 'f' then
        match rest with
        | 'a' :: 'l' :: 's' :: 'e' :: r => some (PyVal.bool false, r)
        | _ => Option.none
      else if c == '"' then
        (parseJsonString fuel rest).map fun p => (PyVal.str p.1, p.2)
      else if c == '[' then
        match skipJsonWs rest with
        | ']' :: r => some (PyVal.list [], r)
        | cs2 => (parseJsonElems fuel cs2).map fun p => (PyVal.list p.1, p.2)
      else if c == '\x7b' then
        match skipJsonWs rest with
        | '\x7d' :: r => some (PyVal.dict [], r)
        | cs2 => (parseJsonMembers fuel cs2).map fun p => (PyVal.dict p.1, p.2)
      else parseJsonNumber (c :: rest)

/-- Parse the non-empty comma-separated element list of a JSON array,
including the closing bracket. -/
def parseJsonElems : Nat → List Char → Option (List PyVal × List Char)
  | 0, _ => Option.none
  | fuel + 1, cs =>
    match parseJsonVal fuel cs with
    | Option.none => Option.none
    | some (v, rest) =>
      match skipJsonWs rest with
      | ',' :: r => (parseJsonElems fuel r).map fun p => (v :: p.1, p.2)
      | ']' :: r => some ([v], r)
      | _ => Option.none

/-- Parse the non-empty comma-separated member list of a JSON object,
including the closing brace. -/
def parseJsonMembers : Nat → List Char → Option (List (String × PyVal) × List Char)
  | 0, _ => Option.none
  | fuel + 1, cs =>
    match skipJsonWs cs with
    | '"' :: rest =>
      match parseJsonString fuel rest with
      | Option.none => Option.none
      | some (key, rest2) =>
        match skipJsonWs rest2 with
        | ':' :: rest3 =>
          match parseJsonVal fuel rest3 with
          | Option.none => Option.none
          | some (v, rest4) =>
            match skipJsonWs rest4 with
            | ',' :: r => (parseJsonMembers fuel r).map fun p => ((key, v) :: p.1, p.2)
            | '\x7d' :: r => some ([(key, v)], r)
            | _ => Option.none
        | _ => Option.none
    | _ => Option.none

end

/-- Model of `json.loads`: parse the whole input as one JSON value; anything
else raises `json.JSONDecodeError`. -/
def json_loads (s : String) : Except PyErr PyVal :=
  match parseJsonVal (2 * s.length + 2) s.data with
  | Option.none => Except.error (PyErr.jsonDecodeError "Expecting value")
  | some (v, rest) =>
    if (skipJsonWs rest).isEmpty then Except.ok v
    else Except.error (PyErr.jsonDecodeError "Extra data")

/-! ### Model of the Python built-in constructors

When `_decode_scalar_typed_data` receives a single expected type it executes
`result = python_type(result)`: it calls the expected Python type as a
constructor.  The functions below model the CPython built-in constructors on
the modelled values (common omissions that cannot arise from JSON/wire input,
such as numeric underscores, `inf`/`nan` literals and `__index__`-based
conversions, are left out). -/

/-- Whitespace stripped by `int(str)` / `float(str)`. -/
def isPyWs (c : Char) : Bool :=
  c == ' ' || c == '\t' || c == '\n' || c == '\r' || c == '\x0b' || c == '\x0c'

/-- Strip leading and trailing Python whitespace. -/
def pyStripWs (cs : List Char) : List Char :=
  ((cs.dropWhile isPyWs).reverse.dropWhile isPyWs).reverse

/-- Bytes interpreted as an ASCII character list (how `int(bytes)` and
`float(bytes)` read their argument). -/
def bytesAscii (bs : List Nat) : String :=
  String.mk (bs.map Char.ofNat)

/-- Model of Python's `int(s)` on a string: strip whitespace, optional sign,
base-10 digits. -/
def pyIntOfString (s : String) : Option Int :=
  let cs := pyStripWs s.data
  let (neg, cs1) := match cs with
    | '-' :: r => (true, r)
    | '+' :: r => (false, r)
    | _ => (false, cs)
  if cs1.isEmpty || !cs1.all Char.isDigit then Option.none
  else some (if neg then -(Int.ofNat (natOfDigits cs1)) else Int.ofNat (natOfDigits cs1))

/-- Model of Python's `int(f)` on a float carried as its decimal literal:
truncation toward zero, computed exactly from the literal. -/
def pyIntOfFloatLit (lit : String) : Option Int :=
  let cs := lit.data
  let (neg, cs1) := match cs with
    | '-' :: r => (true, r)
    | '+' :: r => (false, r)
    | _ => (false, cs)
  let (ids, cs2) := takeDigits cs1
  let (fds, cs3) := match cs2 with
    | '.' :: r => takeDigits r
    | _ => ([], cs2)
  let expv : Option Int := match cs3 with
    | [] => some 0
    | 'e' :: r | 'E' :: r =>
      let (esign, r1) := match r with
        | '+' :: rr => (false, rr)
        | '-' :: rr => (true, rr)
        | _ => (false, r)
      let (eds, r2) := takeDigits r1
      if eds.isEmpty || !r2.isEmpty then Option.none
      else some (if esign then -(Int.ofNat (natOfDigits eds)) else Int.ofNat (natOfDigits eds))
    | _ => Option.none
  match expv with
  | Option.none => Option.none
  | some e =>
    if ids.isEmpty && fds.isEmpty then Option.none
    else
      let m : Nat := natOfDigits (ids ++ fds)
      let scale : Int := e - Int.ofNat fds.length
      let mag : Nat := if 0 ≤ scale then m * 10 ^ scale.toNat else m / 10 ^ (-scale).toNat
      some (if neg then -(Int.ofNat mag) else Int.ofNat mag)

/-- Model of Python's `float(s)` on a string: strip whitespace and validate a
decimal floating literal, keeping the validated literal as the float's
carrier. -/
def pyFloatOfString (s : String) : Option String :=
  let cs := pyStripWs s.data
  let cs1 := match cs with
    | '-' :: r => r
    | '+' :: r => r
    | _ => cs
  let (ids, cs2) := takeDigits cs1
  let (fds, cs3) := match cs2 with
    | '.' :: r => takeDigits r
    | _ => ([], cs2)
  if ids.isEmpty && fds.isEmpty then Option.none
  else
    match cs3 with
    | [] => some (String.mk cs)
    | 'e' :: r | 'E' :: r =>
      let r1 := match r with
        | '+' :: rr => rr
        | '-' :: rr => rr
        | _ => r
      let (eds, r2) := takeDigits r1
      if eds.isEmpty || !r2.isEmpty then Option.none else some (String.mk cs)
    | _ => Option.none

/-- Whether a float literal denotes the value zero (every mantissa digit is
zero). -/
def floatLitIsZero (lit : String) : Bool :=
  let cs := match lit.data with
    | '-' :: r => r
    | '+' :: r => r
    | _ => lit.data
  let mantissa := cs.takeWhile fun c => c != 'e' && c != 'E'
  mantissa.all fun c => c == '0' || c == '.'

/-- Two-digit lowercase hex rendering of a byte. -/
def hexByte (n : Nat) : String :=
  let d := fun (k : Nat) => Char.ofNat (if k < 10 then 48 + k else 87 + k)
  String.mk [d (n / 16 % 16), d (n % 16)]

mutual

/-- Model of Python's `repr` on the modelled values (floats keep their carried
literal; bytes are rendered with uniform hex escapes). -/
def pyRepr : PyVal → String
  | .none => "None"
  | .bool b => if b then "True" else "False"
  | .int n => toString n
  | .float lit => lit
  | .str s => pySq ++ s ++ pySq
  | .list xs => "[" ++ String.intercalate ", " (pyReprList xs) ++ "]"
  | .dict kvs => "\x7b" ++ String.intercalate ", " (pyReprKvs kvs) ++ "\x7d"
  | .bytes bs => "b" ++ pySq ++ String.join (bs.map fun n => "\\x" ++ hexByte n) ++ pySq

/-- Reprs of the elements of a list value. -/
def pyReprList : List PyVal → List String
  | [] => []
  | x :: xs => pyRepr x :: pyReprList xs

/-- Reprs of the members of a dict value. -/
def pyReprKvs : List (String × PyVal) → List String
  | [] => []
  | (k, v) :: kvs => (pySq ++ k ++ pySq ++ ": " ++ pyRepr v) :: pyReprKvs kvs

end

/-- Model of Python's `str` on the modelled values. -/
def pyStr : PyVal → String
  | .str s => s
  | v => pyRepr v

/-- Model of Python's truthiness (`bool(v)`). -/
def pyTruthy : PyVal → Bool
  | .none => false
  | .bool b => b
  | .int n => n != 0
  | .float lit => !floatLitIsZero lit
  | .str s => s != ""
  | .list xs => !xs.isEmpty
  | .dict kvs => !kvs.isEmpty
  | .bytes bs => !bs.isEmpty

/-- Model of calling a Python type as a constructor on a value, as
`_decode_scalar_typed_data` does in `result = python_type(result)`.  Raises
`TypeError` or `ValueError` exactly where the CPython constructors do. -/
def pyCoerce : PyType → PyVal → Except PyErr PyVal
  | .int, v =>
    match v with
    | .bool b => Except.ok (PyVal.int (if b then 1 else 0))
    | .int n => Except.ok (PyVal.int n)
    | .float lit =>
      match pyIntOfFloatLit lit with
      | some n => Except.ok (PyVal.int n)
      | Option.none => Except.error (PyErr.valueError "cannot convert float to int")
    | .str s =>
      match pyIntOfString s with
      | some n => Except.ok (PyVal.int n)
      | Option.none => Except.error (PyErr.valueError
          ("invalid literal for int() with base 10: " ++ pySq ++ s ++ pySq))
    | .bytes bs =>
      match pyIntOfString (bytesAscii bs) with
      | some n => Except.ok (PyVal.int n)
      | Option.none => Except.error (PyErr.valueError
          ("invalid literal for int() with base 10: " ++ pyRepr (PyVal.bytes bs)))
    | _ => Except.error (PyErr.typeError
        ("int() argument must be a string, a bytes-like object or a real number, not "
          ++ pySq ++ typeName (pyTypeOf v) ++ pySq))
  | .float, v =>
    match v with
    | .bool b => Except.ok (PyVal.float (if b then "1.0" else "0.0"))
    | .int n => Except.ok (PyVal.float (toString n ++ ".0"))
    | .float lit => Except.ok (PyVal.float lit)
    | .str s =>
      match pyFloatOfString s with
      | some lit => Except.ok (PyVal.float lit)
      | Option.none => Except.error (PyErr.valueError
          ("could not convert string to float: " ++ pySq ++ s ++ pySq))
    | .bytes bs =>
      match pyFloatOfString (bytesAscii bs) with
      | some lit => Except.ok (PyVal.float lit)
      | Option.none => Except.error (PyErr.valueError
          ("could not convert string to float: " ++ pyRepr (PyVal.bytes bs)))
    | _ => Except.error (PyErr.typeError
        ("float() argument must be a string or a real number, not "
          ++ pySq ++ typeName (pyTypeOf v) ++ pySq))
  | .str, v => Except.ok (PyVal.str (pyStr v))
  | .bool, v => Except.ok (PyVal.bool (pyTruthy v))
  | .list, v =>
    match v with
    | .str s => Except.ok (PyVal.list (s.data.map fun c => PyVal.str (String.singleton c)))
    | .list xs => Except.ok (PyVal.list xs)
    | .dict kvs => Except.ok (PyVal.list (kvs.map fun kv => PyVal.str kv.1))
    | .bytes bs => Except.ok (PyVal.list (bs.map fun n => PyVal.int (Int.ofNat n)))
    | _ => Except.error (PyErr.typeError
        (pySq ++ typeName (pyTypeOf v) ++ pySq ++ " object is not iterable"))
  | .dict, v =>
    match v with
    | .dict kvs => Except.ok (PyVal.dict kvs)
    | _ => Except.error (PyErr.typeError
        (pySq ++ typeName (pyTypeOf v) ++ pySq ++ " object is not a mapping"))
  | .bytes, v =>
    match v with
    | .int n =>
      if 0 ≤ n then Except.ok (PyVal.bytes (List.replicate n.toNat 0))
      else Except.error (PyErr.valueError "negative count")
    | .bytes bs => Except.ok (PyVal.bytes bs)
    | _ => Except.error (PyErr.typeError
        ("cannot convert " ++ pySq ++ typeName (pyTypeOf v) ++ pySq ++ " object to bytes"))
  | .nonetype, _ => Except.error (PyErr.typeError "NoneType takes no arguments")

/-! ### Embedding of the `meta.py` classmethods and module functions -/

/-- Whether a decoded JSON result is structural, i.e. matches the source's
`isinstance(result, (list, dict))` check. -/
def isListOrDict : PyVal → Bool
  | .list _ => true
  | .dict _ => true
  | _ => false

/-- First phase of `_BaseConverter._decode_scalar_typed_data` (lines 78-96):
inspect `data.WhichOneof(str_data)` and produce the raw `result` value, with
the `json` branch parsing the embedded text and rejecting structural JSON, and
the final `else` branch rejecting every other (or no) populated variant. -/
def _decode_scalar_raw (data : TypedData) (context : String) : Except PyErr PyVal :=
  match data with
  | .json s =>
    match json_loads s with
    | Except.error e => Except.error e
    | Except.ok result =>
      if isListOrDict result then
        Except.error (PyErr.valueError
          ("unexpected data structure in expected scalar " ++ context))
      else Except.ok result
  | .string s => Except.ok (PyVal.str s)
  | .int n => Except.ok (PyVal.int n)
  | .double lit => Except.ok (PyVal.float lit)
  | d => Except.error (PyErr.valueError
      ("unsupported type of " ++ context ++ ": " ++ whichOneofStr d))

/-- Second phase of `_BaseConverter._decode_scalar_typed_data` (lines 98-113):
the `if not isinstance(result, python_type)` check, with the tuple branch
raising a mismatch `ValueError` and the single-type branch attempting
`python_type(result)` and rewrapping `TypeError`/`ValueError` from the
coercion. -/
def _check_and_coerce (result : PyVal) (python_type : PyTypeSpec)
    (context : String) : Except PyErr PyVal :=
  if pyIsinstance result python_type then Except.ok result
  else
    match python_type with
    | .tuple ts => Except.error (PyErr.valueError
        ("unexpected value type in " ++ context ++ ": "
          ++ typeName (pyTypeOf result) ++ ", expected one of: "
          ++ String.intercalate ", " (ts.map typeName)))
    | .single t =>
      match pyCoerce t result with
      | Except.ok r => Except.ok r
      | Except.error e =>
        if isTypeOrValueError e then
          Except.error (PyErr.valueError
            ("cannot convert value of " ++ context ++ " into "
              ++ typeName t ++ ": " ++ errMessage e))
        else Except.error e

/-- Embedding of `_BaseConverter._decode_scalar_typed_data`: `None` input
yields `None`; otherwise the raw value of the populated variant is computed
and then type-checked/coerced against `python_type`. -/
def _decode_scalar_typed_data (data : Option TypedData)
    (python_type : PyTypeSpec) (context : String := "data") :
    Except PyErr PyVal :=
  match data with
  | Option.none => Except.ok PyVal.none
  | some d =>
    match _decode_scalar_raw d context with
    | Except.error e => Except.error e
    | Except.ok result => _check_and_coerce result python_type context

/-- The context argument built by `_decode_trigger_metadata_field`:
`f-string` of the source, with the field name rendered by `!r`. -/
def triggerMetadataContext (field : String) : String :=
  "field " ++ pySq ++ field ++ pySq ++ " in trigger metadata"

/-- Embedding of `_BaseConverter._decode_trigger_metadata_field`:
`trigger_metadata.get(field)` returning `None` when the key is absent, else
delegation to `_decode_scalar_typed_data`. -/
def _decode_trigger_metadata_field
    (trigger_metadata : List (String × TypedData)) (field : String)
    (python_type : PyTypeSpec) : Except PyErr PyVal :=
  match trigger_metadata.lookup field with
  | Option.none => Except.ok PyVal.none
  | some data => _decode_scalar_typed_data (some data) python_type
      (triggerMetadataContext field)

/-! ### Embedding of `_ConverterMeta` and the module-level dispatch functions

A concrete converter class is modelled by the capabilities the metaclass reads
off it: its `check_python_type` classmethod, its `from_proto` classmethod when
it subclasses `InConverter`, and its `to_proto` classmethod when it subclasses
`OutConverter`.  The metaclass's three class attributes are the fields of
`RegState`; because the duplicate check guarantees a key is inserted at most
once, the Python `dict` insertions are modelled as list-cons onto association
lists with `List.lookup` as lookup. -/

/-- Type of a registered `from_proto` classmethod: takes the `TypedData` value
and the trigger metadata, may raise. -/
def InConv : Type :=
  TypedData → Option (List (String × TypedData)) → Except PyErr PyVal

/-- Type of a registered `to_proto` classmethod: takes the native value, may
raise. -/
def OutConv : Type := PyVal → Except PyErr TypedData

/-- The three class-level mapping attributes of `_ConverterMeta`
(`_check_py_type`, `_from_proto`, `_to_proto`). -/
structure RegState where
  check_py_type : List (Binding × (PyType → Bool))
  from_proto : List (Binding × InConv)
  to_proto : List (Binding × OutConv)

/-- The registry as it stands after `meta.py` itself is imported: the module
defines only `_BaseConverter`, `InConverter` and `OutConverter`, all with
`binding=None`, so no entry is ever added by the module itself. -/
def emptyRegistry : RegState := ⟨[], [], []⟩

/-- The capability set of a converter class as the metaclass observes it. -/
structure ConverterClass where
  check_python_type : PyType → Bool
  from_proto : Option InConv
  to_proto : Option OutConv

/-- The duplicate-registration error message raised by
`_ConverterMeta.__new__` (the f-string formats the str-enum member as its
token). -/
def cannotRegisterMsg (b : Binding) : String :=
  "cannot register a converter for " ++ b.value
    ++ " binding: another converter has already been registered"

/-- The `issubclass(cls, OutConverter)` block of `_ConverterMeta.__new__`:
install `to_proto` when the class declares the outbound capability, after the
source's `assert binding not in mcls._to_proto`. -/
def installToProto (st : RegState) (b : Binding) (cls : ConverterClass) :
    Except PyErr RegState :=
  match cls.to_proto with
  | Option.none => Except.ok st
  | some tp =>
    if (st.to_proto.lookup b).isSome then Except.error PyErr.assertionError
    else Except.ok { st with to_proto := (b, tp) :: st.to_proto }

/-- Embedding of `_ConverterMeta.__new__` (lines 41-61): `binding=None`
registers nothing; otherwise a duplicate of an existing `_check_py_type` key
raises `RuntimeError`, and the capabilities are installed, with the source's
`assert binding not in ...` statements modelled as `AssertionError`. -/
def ConverterMeta_new (mcls : RegState) (binding : Option Binding)
    (cls : ConverterClass) : Except PyErr RegState :=
  match binding with
  | Option.none => Except.ok mcls
  | some b =>
    if (mcls.check_py_type.lookup b).isSome then
      Except.error (PyErr.runtimeError (cannotRegisterMsg b))
    else
      let st1 : RegState :=
        { mcls with check_py_type := (b, cls.check_python_type) :: mcls.check_py_type }
      match cls.from_proto with
      | Option.none => installToProto st1 b cls
      | some fp =>
        if (st1.from_proto.lookup b).isSome then Except.error PyErr.assertionError
        else installToProto { st1 with from_proto := (b, fp) :: st1.from_proto } b cls

/-- A sequence of class definitions processed by the metaclass in order,
stopping at the first registration-time error (an uncaught exception at class
definition time aborts the import). -/
def applyRegistrations (st : RegState) :
    List (Option Binding × ConverterClass) → Except PyErr RegState
  | [] => Except.ok st
  | (b, c) :: rest =>
    match ConverterMeta_new st b c with
    | Except.ok st2 => applyRegistrations st2 rest
    | Except.error e => Except.error e

/-- The normalized error message of `from_incoming_proto`. -/
def decodeCombinationMsg (val : TypedData) (binding : Binding) : String :=
  "unable to decode incoming TypedData: unsupported combination of TypedData field "
    ++ whichOneofRepr val ++ " and expected binding type " ++ binding.value

/-- The normalized error message of `to_outgoing_proto`. -/
def encodeCombinationMsg (binding : Binding) (obj : PyVal) : String :=
  "unable to encode outgoing TypedData: unsupported type \"" ++ binding.value
    ++ "\" for Python type \"" ++ typeName (pyTypeOf obj) ++ "\""

/-- Embedding of `from_incoming_proto` (lines 158-178): a missing `_from_proto`
entry raises `NotImplementedError` inside the inner `try`; the outer `except
NotImplementedError` turns that — or the same exception escaping the converter
call — into the one normalized `TypeError`; every other outcome of the
converter call passes through unchanged.  (The initial
`converter = ..._from_proto.get(binding)` line of the source is dead: the
variable is immediately rebound inside the `try`.) -/
def from_incoming_proto (st : RegState) (binding : Binding) (val : TypedData)
    (trigger_metadata : Option (List (String × TypedData))) :
    Except PyErr PyVal :=
  let attempt : Except PyErr PyVal :=
    match st.from_proto.lookup binding with
    | Option.none => Except.error PyErr.notImplementedError
    | some converter => converter val trigger_metadata
  match attempt with
  | Except.error PyErr.notImplementedError =>
    Except.error (PyErr.typeError (decodeCombinationMsg val binding))
  | other => other

/-- Embedding of `to_outgoing_proto` (lines 181-196), the mirror of
`from_incoming_proto` for the `_to_proto` table. -/
def to_outgoing_proto (st : RegState) (binding : Binding) (obj : PyVal) :
    Except PyErr TypedData :=
  let attempt : Except PyErr TypedData :=
    match st.to_proto.lookup binding with
    | Option.none => Except.error PyErr.notImplementedError
    | some converter => converter obj
  match attempt with
  | Except.error PyErr.notImplementedError =>
    Except.error (PyErr.typeError (encodeCombinationMsg binding obj))
  | other => other

/-- Embedding of `check_bind_type_matches_py_type` (lines 146-156): a missing
`_check_py_type` entry raises `TypeError`; otherwise the registered predicate
decides. -/
def check_bind_type_matches_py_type (st : RegState) (binding : Binding)
    (pytype : PyType) : Except PyErr Bool :=
  match st.check_py_type.lookup binding with
  | Option.none => Except.error (PyErr.typeError
      ("bind type " ++ binding.value
        ++ " does not have a corresponding Python type"))
  | some checker => Except.ok (checker pytype)

/-! ### Sample converter classes and registries used by concrete witnesses -/

/-- A sample `check_python_type` predicate. -/
def sampleCheck : PyType → Bool := fun t => t == PyType.str

/-- A sample working `from_proto` classmethod. -/
def sampleInConv : InConv :=
  fun v _ => _decode_scalar_typed_data (some v) (PyTypeSpec.single PyType.str)

/-- A sample working `to_proto` classmethod. -/
def sampleOutConv : OutConv := fun v => Except.ok (TypedData.string (pyStr v))

/-- A `from_proto` classmethod that always declines with
`NotImplementedError`. -/
def decliningInConv : InConv := fun _ _ => Except.error PyErr.notImplementedError

/-- A `to_proto` classmethod that always declines with
`NotImplementedError`. -/
def decliningOutConv : OutConv := fun _ => Except.error PyErr.notImplementedError

/-- A `from_proto` classmethod that fails with an ordinary `ValueError`. -/
def raisingInConv : InConv := fun _ _ => Except.error (PyErr.valueError "boom")

/-- A `to_proto` classmethod that fails with an ordinary `ValueError`. -/
def raisingOutConv : OutConv := fun _ => Except.error (PyErr.valueError "boom")

/-- A converter class declaring both capabilities. -/
def clsBoth : ConverterClass := ⟨sampleCheck, some sampleInConv, some sampleOutConv⟩

/-- A converter class declaring neither optional capability. -/
def clsCheckOnly : ConverterClass := ⟨sampleCheck, Option.none, Option.none⟩

/-- A converter class declaring only the inbound capability. -/
def clsInOnly : ConverterClass := ⟨sampleCheck, some sampleInConv, Option.none⟩

/-- A registry whose `queue` converter declines every input. -/
def decliningRegistry : RegState :=
  ⟨[(Binding.queue, sampleCheck)], [(Binding.queue, decliningInConv)],
    [(Binding.queue, decliningOutConv)]⟩

/-- A registry whose `queue` converter raises an ordinary `ValueError`. -/
def raisingRegistry : RegState :=
  ⟨[(Binding.queue, sampleCheck)], [(Binding.queue, raisingInConv)],
    [(Binding.queue, raisingOutConv)]⟩

/-- The registry after successfully registering `clsBoth` for `queue` on the
fresh module state. -/
def regStep1 : RegState :=
  match ConverterMeta_new emptyRegistry (some Binding.queue) clsBoth with
  | Except.ok st => st
  | Except.error _ => emptyRegistry

/-- The registry after additionally registering `clsCheckOnly` for `blob`. -/
def regStep2 : RegState :=
  match applyRegistrations regStep1 [(some Binding.blob, clsCheckOnly)] with
  | Except.ok st => st
  | Except.error _ => emptyRegistry

/-! ### Helper lemmas about the registration mechanism -/

/-- `installToProto` never touches the `_check_py_type` table. -/
theorem installToProto_check (st : RegState) (b : Binding) (c : ConverterClass)
    (st' : RegState) (h : installToProto st b c = Except.ok st') :
    st'.check_py_type = st.check_py_type := by
  unfold installToProto at h
  cases hc : c.to_proto with
  | none =>
    rw [hc] at h
    simp only [Except.ok.injEq] at h
    subst h; rfl
  | some tp =>
    rw [hc] at h
    by_cases hb : (st.to_proto.lookup b).isSome
    · simp [hb] at h
    · simp only [hb, if_neg, Bool.false_eq_true, not_false_eq_true, if_false,
        Except.ok.injEq] at h
      subst h; rfl

/-- A successful registration for `k` prepends exactly one `_check_py_type`
entry for `k`. -/
theorem ConverterMeta_new_check (st st' : RegState) (k : Binding)
    (c : ConverterClass)
    (h : ConverterMeta_new st (some k) c = Except.ok st') :
    st'.check_py_type = (k, c.check_python_type) :: st.check_py_type := by
  unfold ConverterMeta_new at h
  by_cases hdup : (st.check_py_type.lookup k).isSome
  · simp [hdup] at h
  · simp only [hdup, Bool.false_eq_true, if_false] at h
    cases hf : c.from_proto with
    | none =>
      rw [hf] at h
      exact installToProto_check _ _ _ _ h
    | some fp =>
      rw [hf] at h
      by_cases hb : ((RegState.from_proto
          { st with check_py_type := (k, c.check_python_type) :: st.check_py_type }).lookup k).isSome
      · simp [hb] at h
      · simp only [hb, Bool.false_eq_true, if_false] at h
        exact installToProto_check _ _ _ _ h

/-- After a successful registration for `k`, the `_check_py_type` table has an
entry for `k`. -/
theorem ConverterMeta_new_registers (st st' : RegState) (k : Binding)
    (c : ConverterClass)
    (h : ConverterMeta_new st (some k) c = Except.ok st') :
    (st'.check_py_type.lookup k).isSome := by
  rw [ConverterMeta_new_check st st' k c h]
  simp [List.lookup]

/-- Any successful registration preserves existing `_check_py_type` entries. -/
theorem ConverterMeta_new_preserves_check (st st' : RegState) (k : Binding)
    (b : Option Binding) (c : ConverterClass)
    (hk : (st.check_py_type.lookup k).isSome)
    (h : ConverterMeta_new st b c = Except.ok st') :
    (st'.check_py_type.lookup k).isSome := by
  cases b with
  | none =>
    unfold ConverterMeta_new at h
    simp only [Except.ok.injEq] at h
    subst h; exact hk
  | some b' =>
    rw [ConverterMeta_new_check st st' b' c h]
    simp only [List.lookup]
    by_cases he : k == b'
    · simp [he]
    · simp [he, hk]

/-- Any successful sequence of registrations preserves existing
`_check_py_type` entries. -/
theorem applyRegistrations_preserves_check (k : Binding)
    (evs : List (Option Binding × ConverterClass)) :
    ∀ st st' : RegState, (st.check_py_type.lookup k).isSome →
      applyRegistrations st evs = Except.ok st' →
      (st'.check_py_type.lookup k).isSome := by
  induction evs with
  | nil =>
    intro st st' hk h
    unfold applyRegistrations at h
    simp only [Except.ok.injEq] at h
    subst h; exact hk
  | cons ev rest ih =>
    intro st st' hk h
    unfold applyRegistrations at h
    cases hstep : ConverterMeta_new st ev.1 ev.2 with
    | ok st2 =>
      rw [hstep] at h
      exact ih st2 st' (ConverterMeta_new_preserves_check st st2 k ev.1 ev.2 hk hstep) h
    | error e =>
      rw [hstep] at h
      simp at h

/-! ### Claim theorems -/

/-- C1: for every binding kind, after a converter registration for that kind
has succeeded, any second attempt to register a converter for the same kind —
after arbitrarily many other registrations, and whatever capability sets the
two registrations declare — fails at registration time with the fatal
`RuntimeError` configuration error. -/
theorem duplicate_registration_always_fatal
    (st st1 st2 : RegState) (k : Binding) (c1 : ConverterClass)
    (evs : List (Option Binding × ConverterClass))
    (h1 : ConverterMeta_new st (some k) c1 = Except.ok st1)
    (h2 : applyRegistrations st1 evs = Except.ok st2)
    (c2 : ConverterClass) :
    ConverterMeta_new st2 (some k) c2
      = Except.error (PyErr.runtimeError (cannotRegisterMsg k)) := by
  have hk1 : (st1.check_py_type.lookup k).isSome :=
    ConverterMeta_new_registers st st1 k c1 h1
  have hk2 : (st2.check_py_type.lookup k).isSome :=
    applyRegistrations_preserves_check k evs st1 st2 hk1 h2
  unfold ConverterMeta_new
  simp [hk2]

/-- Witness for C1: registering for `queue` on the fresh module state, then
for `blob`, then again for `queue` with a different capability set hits the
fatal duplicate-registration error. -/
theorem duplicate_registration_always_fatal_witness :
    ConverterMeta_new regStep2 (some Binding.queue) clsInOnly
      = Except.error (PyErr.runtimeError (cannotRegisterMsg Binding.queue)) :=
  duplicate_registration_always_fatal emptyRegistry regStep1 regStep2
    Binding.queue clsBoth [(some Binding.blob, clsCheckOnly)] rfl rfl clsInOnly

/-- C5: for every expected type specification and every context,
`_decode_scalar_typed_data` applied to an absent value (`None`) returns the
empty result `None` rather than raising. -/
theorem decode_scalar_absent_returns_none (spec : PyTypeSpec) (ctx : String) :
    _decode_scalar_typed_data Option.none spec ctx = Except.ok PyVal.none :=
  rfl

/-- C7: `Binding.is_trigger` computes string-suffix testing of the member's
token against `Trigger`, and holds exactly for the four trigger kinds
(`blobTrigger`, `httpTrigger`, `timerTrigger`, `queueTrigger`), being false on
`blob`, `http` and `queue`; it is a total function with no failure mode. -/
theorem is_trigger_spec (b : Binding) :
    Binding.is_trigger b = pyEndsWith (Binding.value b) "Trigger"
    ∧ (Binding.is_trigger b = true ↔
        b = Binding.blobTrigger ∨ b = Binding.httpTrigger
          ∨ b = Binding.timerTrigger ∨ b = Binding.queueTrigger) := by
  cases b <;> exact ⟨rfl, by decide⟩

/-- C9: a present envelope with no populated variant (`WhichOneof` returns
`None`) is not treated as "no value": for every expected type specification it
raises the unsupported-type `ValueError` naming `None` as the variant, while
only the literally absent input yields the empty result. -/
theorem unset_envelope_rejected (spec : PyTypeSpec) (ctx : String) :
    TypedData.whichOneof TypedData.unset = Option.none
    ∧ _decode_scalar_typed_data (some TypedData.unset) spec ctx
        = Except.error (PyErr.valueError
            ("unsupported type of " ++ ctx ++ ": " ++ "None"))
    ∧ _decode_scalar_typed_data Option.none spec ctx = Except.ok PyVal.none :=
  ⟨rfl, rfl, rfl⟩

/-- C2: when the populated variant is `json`, the embedded text is parsed as
JSON; whenever the parse yields a list or a keyed mapping the decode fails
with the structural-rejection `ValueError` for every expected type
specification, while the `json` variant containing `42` with single expected
type `int` succeeds and yields the integer `42`. -/
theorem decode_scalar_json_structural_rejected
    (s ctx : String) (spec : PyTypeSpec) (r : PyVal)
    (hparse : json_loads s = Except.ok r)
    (hstruct : isListOrDict r = true) :
    _decode_scalar_typed_data (some (TypedData.json s)) spec ctx
      = Except.error (PyErr.valueError
          ("unexpected data structure in expected scalar " ++ ctx))
    ∧ _decode_scalar_typed_data (some (TypedData.json "42"))
        (PyTypeSpec.single PyType.int) ctx = Except.ok (PyVal.int 42) := by
  constructor
  · simp [_decode_scalar_typed_data, _decode_scalar_raw, hparse, hstruct]
  · have h42 : json_loads "42" = Except.ok (PyVal.int 42) := rfl
    simp [_decode_scalar_typed_data, _decode_scalar_raw, h42, isListOrDict,
      _check_and_coerce, pyIsinstance, pyIsinstance1, pyTypeOf]

/-- Witness for C2: the embedded JSON text `[1,2,3]` parses to a list and is
rejected, while `42` decodes to the integer `42`. -/
theorem decode_scalar_json_structural_rejected_witness :
    _decode_scalar_typed_data (some (TypedData.json "[1,2,3]"))
        (PyTypeSpec.single PyType.int) "data"
      = Except.error (PyErr.valueError
          ("unexpected data structure in expected scalar " ++ "data"))
    ∧ _decode_scalar_typed_data (some (TypedData.json "42"))
        (PyTypeSpec.single PyType.int) "data" = Except.ok (PyVal.int 42) :=
  decode_scalar_json_structural_rejected "[1,2,3]" "data"
    (PyTypeSpec.single PyType.int)
    (PyVal.list [PyVal.int 1, PyVal.int 2, PyVal.int 3]) rfl rfl

/-- C3: when the raw decoded result fails the `isinstance` check, a tuple of
acceptable types yields the mismatch `ValueError` without any coercion
attempt, for every raw result and context; a single expected type attempts
constructor coercion, so the `string` variant `123` with expected type `int`
yields the integer `123`, while the same variant with expected types
`(int, float)` fails with the mismatch error. -/
theorem decode_scalar_coercion_policy
    (result : PyVal) (ts : List PyType) (ctx : String)
    (hmem : pyIsinstance result (PyTypeSpec.tuple ts) = false) :
    _check_and_coerce result (PyTypeSpec.tuple ts) ctx
      = Except.error (PyErr.valueError
          ("unexpected value type in " ++ ctx ++ ": "
            ++ typeName (pyTypeOf result) ++ ", expected one of: "
            ++ String.intercalate ", " (ts.map typeName)))
    ∧ _decode_scalar_typed_data (some (TypedData.string "123"))
        (PyTypeSpec.single PyType.int) ctx = Except.ok (PyVal.int 123)
    ∧ _decode_scalar_typed_data (some (TypedData.string "123"))
        (PyTypeSpec.tuple [PyType.int, PyType.float]) ctx
      = Except.error (PyErr.valueError
          ("unexpected value type in " ++ ctx ++ ": " ++ "str"
            ++ ", expected one of: " ++ "int, float")) := by
  refine ⟨?_, ?_, ?_⟩
  · simp [_check_and_coerce, hmem]
  · have h123 : pyCoerce PyType.int (PyVal.str "123")
        = Except.ok (PyVal.int 123) := rfl
    simp [_decode_scalar_typed_data, _decode_scalar_raw, _check_and_coerce,
      pyIsinstance, pyIsinstance1, pyTypeOf, h123]
  · rfl

/-- Witness for C3: the raw string `123` is not an instance of `(int, float)`,
so the tuple case fails while the single-type case coerces. -/
theorem decode_scalar_coercion_policy_witness :
    _check_and_coerce (PyVal.str "123") (PyTypeSpec.tuple [PyType.int, PyType.float]) "data"
      = Except.error (PyErr.valueError
          ("unexpected value type in " ++ "data" ++ ": "
            ++ typeName (pyTypeOf (PyVal.str "123")) ++ ", expected one of: "
            ++ String.intercalate ", " ([PyType.int, PyType.float].map typeName)))
    ∧ _decode_scalar_typed_data (some (TypedData.string "123"))
        (PyTypeSpec.single PyType.int) "data" = Except.ok (PyVal.int 123)
    ∧ _decode_scalar_typed_data (some (TypedData.string "123"))
        (PyTypeSpec.tuple [PyType.int, PyType.float]) "data"
      = Except.error (PyErr.valueError
          ("unexpected value type in " ++ "data" ++ ": " ++ "str"
            ++ ", expected one of: " ++ "int, float")) :=
  decode_scalar_coercion_policy (PyVal.str "123") [PyType.int, PyType.float]
    "data" rfl

/-- C10: the `isinstance` check of the decoder accepts subclass instances: a
raw result passing the single-type check (which includes `bool` values against
expected type `int`, since `bool` subclasses `int`) is returned unchanged with
no coercion attempted, membership in a tuple of expected types is likewise
satisfied by a subclass of a member, and concretely the JSON boolean `true`
decoded against single expected type `int` yields the boolean unchanged. -/
theorem isinstance_subclass_accepted
    (result : PyVal) (t : PyType) (ts : List PyType) (ctx : String)
    (h1 : pyIsinstance result (PyTypeSpec.single t) = true)
    (h2 : pyIsinstance result (PyTypeSpec.tuple ts) = true) :
    _check_and_coerce result (PyTypeSpec.single t) ctx = Except.ok result
    ∧ _check_and_coerce result (PyTypeSpec.tuple ts) ctx = Except.ok result
    ∧ pyIsinstance (PyVal.bool true) (PyTypeSpec.single PyType.int) = true
    ∧ _decode_scalar_typed_data (some (TypedData.json "true"))
        (PyTypeSpec.single PyType.int) ctx = Except.ok (PyVal.bool true) := by
  refine ⟨?_, ?_, rfl, ?_⟩
  · simp [_check_and_coerce, h1]
  · simp [_check_and_coerce, h2]
  · have htrue : json_loads "true" = Except.ok (PyVal.bool true) := rfl
    simp [_decode_scalar_typed_data, _decode_scalar_raw, htrue, isListOrDict,
      _check_and_coerce, pyIsinstance, pyIsinstance1, pyTypeOf]

/-- Witness for C10: the boolean `true` against single expected type `int` and
against the tuple `(int, str)` is accepted unchanged via the subclass
relation. -/
theorem isinstance_subclass_accepted_witness :
    _check_and_coerce (PyVal.bool true) (PyTypeSpec.single PyType.int) "data"
      = Except.ok (PyVal.bool true)
    ∧ _check_and_coerce (PyVal.bool true) (PyTypeSpec.tuple [PyType.int, PyType.str]) "data"
      = Except.ok (PyVal.bool true)
    ∧ pyIsinstance (PyVal.bool true) (PyTypeSpec.single PyType.int) = true
    ∧ _decode_scalar_typed_data (some (TypedData.json "true"))
        (PyTypeSpec.single PyType.int) "data" = Except.ok (PyVal.bool true) :=
  isinstance_subclass_accepted (PyVal.bool true) PyType.int
    [PyType.int, PyType.str] "data" rfl rfl

/-- C6: for every trigger-metadata mapping, field name and expected type
specification, `_decode_trigger_metadata_field` returns the empty result when
the field is absent, and otherwise returns exactly the result of
`_decode_scalar_typed_data` on the mapped value with the same expected type
and the context string naming the field and the words `trigger metadata`. -/
theorem decode_trigger_metadata_field_delegates
    (tm : List (String × TypedData)) (field : String) (spec : PyTypeSpec) :
    (tm.lookup field = Option.none →
      _decode_trigger_metadata_field tm field spec = Except.ok PyVal.none)
    ∧ (∀ d : TypedData, tm.lookup field = some d →
        _decode_trigger_metadata_field tm field spec
          = _decode_scalar_typed_data (some d) spec
              ("field " ++ pySq ++ field ++ pySq ++ " in trigger metadata")) := by
  constructor
  · intro habs
    simp [_decode_trigger_metadata_field, habs]
  · intro d hd
    simp [_decode_trigger_metadata_field, hd, triggerMetadataContext]

/-- Witness for C6: a mapping holding field `id` yields exactly the delegated
scalar decode for `id`, and the empty result for the absent field `other`. -/
theorem decode_trigger_metadata_field_delegates_witness :
    _decode_trigger_metadata_field [("id", TypedData.string "7")] "other"
        (PyTypeSpec.single PyType.int) = Except.ok PyVal.none
    ∧ _decode_trigger_metadata_field [("id", TypedData.string "7")] "id"
        (PyTypeSpec.single PyType.int)
      = _decode_scalar_typed_data (some (TypedData.string "7"))
          (PyTypeSpec.single PyType.int)
          ("field " ++ pySq ++ "id" ++ pySq ++ " in trigger metadata") :=
  ⟨(decode_trigger_metadata_field_delegates [("id", TypedData.string "7")]
      "other" (PyTypeSpec.single PyType.int)).1 rfl,
    (decode_trigger_metadata_field_delegates [("id", TypedData.string "7")]
      "id" (PyTypeSpec.single PyType.int)).2 (TypedData.string "7") rfl⟩

/-- C4: `from_incoming_proto` fails with the one normalized `TypeError` naming
the populated wire-variant of the value and the requested kind both when no
inbound converter is registered for the kind and when the registered converter
raises `NotImplementedError`; `to_outgoing_proto` symmetrically fails with the
one normalized `TypeError` naming the kind and the native value's runtime type
in both situations. -/
theorem facade_error_normalization
    (st : RegState) (k : Binding) (v : TypedData)
    (tm : Option (List (String × TypedData))) (conv : InConv)
    (obj : PyVal) (oconv : OutConv) :
    (st.from_proto.lookup k = Option.none →
      from_incoming_proto st k v tm
        = Except.error (PyErr.typeError (decodeCombinationMsg v k)))
    ∧ (st.from_proto.lookup k = some conv →
        conv v tm = Except.error PyErr.notImplementedError →
        from_incoming_proto st k v tm
          = Except.error (PyErr.typeError (decodeCombinationMsg v k)))
    ∧ (st.to_proto.lookup k = Option.none →
        to_outgoing_proto st k obj
          = Except.error (PyErr.typeError (encodeCombinationMsg k obj)))
    ∧ (st.to_proto.lookup k = some oconv →
        oconv obj = Except.error PyErr.notImplementedError →
        to_outgoing_proto st k obj
          = Except.error (PyErr.typeError (encodeCombinationMsg k obj))) := by
  refine ⟨?_, ?_, ?_, ?_⟩
  · intro habs
    simp [from_incoming_proto, habs]
  · intro hsome hdecl
    simp [from_incoming_proto, hsome, hdecl]
  · intro habs
    simp [to_outgoing_proto, habs]
  · intro hsome hdecl
    simp [to_outgoing_proto, hsome, hdecl]

/-- Witness for C4: on the empty registry and on a registry whose `queue`
converter declines, both directions produce the identical normalized
`TypeError` values. -/
theorem facade_error_normalization_witness :
    from_incoming_proto emptyRegistry Binding.queue (TypedData.string "x") Option.none
      = Except.error (PyErr.typeError
          (decodeCombinationMsg (TypedData.string "x") Binding.queue))
    ∧ from_incoming_proto decliningRegistry Binding.queue (TypedData.string "x") Option.none
      = Except.error (PyErr.typeError
          (decodeCombinationMsg (TypedData.string "x") Binding.queue))
    ∧ to_outgoing_proto emptyRegistry Binding.queue (PyVal.int 1)
      = Except.error (PyErr.typeError
          (encodeCombinationMsg Binding.queue (PyVal.int 1)))
    ∧ to_outgoing_proto decliningRegistry Binding.queue (PyVal.int 1)
      = Except.error (PyErr.typeError
          (encodeCombinationMsg Binding.queue (PyVal.int 1))) :=
  ⟨(facade_error_normalization emptyRegistry Binding.queue (TypedData.string "x")
      Option.none decliningInConv (PyVal.int 1) decliningOutConv).1 rfl,
    (facade_error_normalization decliningRegistry Binding.queue (TypedData.string "x")
      Option.none decliningInConv (PyVal.int 1) decliningOutConv).2.1 rfl rfl,
    (facade_error_normalization emptyRegistry Binding.queue (TypedData.string "x")
      Option.none decliningInConv (PyVal.int 1) decliningOutConv).2.2.1 rfl,
    (facade_error_normalization decliningRegistry Binding.queue (TypedData.string "x")
      Option.none decliningInConv (PyVal.int 1) decliningOutConv).2.2.2 rfl rfl⟩

/-- C8: the façades rewrap only the `NotImplementedError` signal; when the
registered converter fails with any other exception, that exception propagates
to the caller unchanged in both directions. -/
theorem facade_propagates_other_errors
    (st : RegState) (k : Binding) (v : TypedData)
    (tm : Option (List (String × TypedData))) (conv : InConv)
    (oconv : OutConv) (obj : PyVal) (e : PyErr)
    (hne : e ≠ PyErr.notImplementedError) :
    (st.from_proto.lookup k = some conv → conv v tm = Except.error e →
      from_incoming_proto st k v tm = Except.error e)
    ∧ (st.to_proto.lookup k = some oconv → oconv obj = Except.error e →
        to_outgoing_proto st k obj = Except.error e) := by
  constructor
  · intro hsome hfail
    simp only [from_incoming_proto, hsome, hfail]
    cases e <;> simp_all
  · intro hsome hfail
    simp only [to_outgoing_proto, hsome, hfail]
    cases e <;> simp_all

/-- Witness for C8: a `queue` converter raising `ValueError` propagates that
very `ValueError` through both façades. -/
theorem facade_propagates_other_errors_witness :
    from_incoming_proto raisingRegistry Binding.queue (TypedData.string "x") Option.none
      = Except.error (PyErr.valueError "boom")
    ∧ to_outgoing_proto raisingRegistry Binding.queue (PyVal.int 1)
      = Except.error (PyErr.valueError "boom") :=
  ⟨(facade_propagates_other_errors raisingRegistry Binding.queue
      (TypedData.string "x") Option.none raisingInConv raisingOutConv
      (PyVal.int 1) (PyErr.valueError "boom") (by simp)).1 rfl rfl,
    (facade_propagates_other_errors raisingRegistry Binding.queue
      (TypedData.string "x") Option.none raisingInConv raisingOutConv
      (PyVal.int 1) (PyErr.valueError "boom") (by simp)).2 rfl rfl⟩
